import Mathlib

/-
Verification development for the rcs repository (planner/executor resume agent).

The embedding models, from src/agent.py: the tool-schema derivation
(Agent._get_tool_schemas), tool invocation and outcome classification
(Agent._call_tool), result formatting (Agent._format_tool_result) and the
agent loop (Agent.run); and from src/main.py: the plan storage and its
add_action_item tool.
-/

namespace RCS

/-- A Python runtime value, as far as the agent core distinguishes values:
None, a string, or some other object (modelled here by ints and bools). -/
inductive PyVal where
| vNone : PyVal
| vStr  : String → PyVal
| vInt  : Int → PyVal
| vBool : Bool → PyVal
deriving DecidableEq

/-- A keyword-argument bag, as passed to tool_func(**arguments). -/
abbrev Args := List (String × PyVal)

/-- Whether the first character list leads the second one. -/
def starts_chars : List Char → List Char → Bool
  | [], _ => true
  | _ :: _, [] => false
  | c :: pre, d :: s => c == d && starts_chars pre s

/-- Models Python str.startswith over the underlying characters. -/
def py_startswith (s pre : String) : Bool := starts_chars pre.data s.data

/-- Whether the pattern occurs in the character list. -/
def contains_chars (pat : List Char) : List Char → Bool
  | [] => starts_chars pat []
  | d :: s => starts_chars pat (d :: s) || contains_chars pat s

/-- Models the Python in operator on strings (substring test). -/
def py_contains (s pat : String) : Bool := contains_chars pat.data s.data

/-- Models Python str.lower over the underlying characters. -/
def py_lower (s : String) : String := String.mk (List.map Char.toLower s.data)

/-- Models the Python slice s[:n] over the underlying characters. -/
def py_take (s : String) (n : Nat) : String := String.mk (List.take n s.data)

/-- The shape classes of a return-type annotation that Agent._call_tool can
distinguish: no annotation (inspect.Signature.empty), exactly str, a Union
containing None whose payload is str (Optional of str), a Union containing
None with a non-str payload (e.g. Optional of int), or any other shape. -/
inductive RetAnn where
| empty        : RetAnn
| strAnn       : RetAnn
| optionalStr  : RetAnn
| optionalOther : RetAnn
| otherAnn     : RetAnn
deriving DecidableEq

/-- The shape classes of a parameter annotation that _get_tool_schemas can
distinguish: absent, int, float, bool, the bare builtin list, the bare
typing.List, or anything else (str, List of str, tuple, ...). -/
inductive ParamAnn where
| noAnn   : ParamAnn
| intAnn  : ParamAnn
| floatAnn : ParamAnn
| boolAnn : ParamAnn
| pyListAnn : ParamAnn
| typingListAnn : ParamAnn
| otherAnn : ParamAnn
deriving DecidableEq

/-- One declared parameter of a tool callable: its name, its annotation
class, and whether it carries a default value
(param.default != inspect.Parameter.empty). -/
structure Param where
  name : String
  ann : ParamAnn
  hasDefault : Bool
deriving DecidableEq

/-- A tool callable as the agent core sees it: declared parameters,
docstring (empty string when absent), return-annotation shape, and its
behaviour (returning a value or raising; Except.error e models a raised
exception whose str(e) is e). -/
structure Tool where
  params : List Param
  doc : String
  retAnn : RetAnn
  impl : Args → Except String PyVal

/-- The normalized envelope produced by Agent._call_tool: either
the dict with success True and data, or the dict with success False,
error, tool_name and arguments. -/
inductive Outcome where
| success : PyVal → Outcome
| failure : String → String → Args → Outcome

/-- Outcome classification of a normally-returned value in Agent._call_tool
(src/agent.py lines 126-178), given the callable's return-annotation shape.
A plain str annotation makes any result data; otherwise is_optional is set
exactly when the annotation is a Union containing None, and then None is
success, a string is an error when is_optional holds or when it starts with
the literal prefix Error:, and anything else is data. -/
def classify_result (ann : RetAnn) (result : PyVal) (tool_name : String)
    (arguments : Args) : Outcome :=
  if ann = RetAnn.strAnn then
    Outcome.success result
  else
    let is_optional : Bool :=
      match ann with
      | RetAnn.optionalStr => true
      | RetAnn.optionalOther => true
      | _ => false
    match result with
    | PyVal.vNone => Outcome.success PyVal.vNone
    | PyVal.vStr s =>
        if is_optional then Outcome.failure s tool_name arguments
        else if py_startswith s "Error:" then
          Outcome.failure s tool_name arguments
        else Outcome.success (PyVal.vStr s)
    | r => Outcome.success r

/-- Agent._call_tool (src/agent.py lines 107-186): unknown tool names fail
closed; a raised exception is converted to a failure envelope carrying
str(e), the tool name and the arguments; a normal return is classified by
classify_result. -/
def call_tool (tools : List (String × Tool)) (tool_name : String)
    (arguments : Args) : Outcome :=
  match List.lookup tool_name tools with
  | Option.none =>
      Outcome.failure ("Tool \x27" ++ tool_name ++ "\x27 not found")
        tool_name arguments
  | Option.some tool_func =>
      match tool_func.impl arguments with
      | Except.error e => Outcome.failure e tool_name arguments
      | Except.ok result =>
          classify_result tool_func.retAnn result tool_name arguments

/-- Minimal JSON string escaping, modelling what json.dumps does to the
characters that can appear in our values. -/
def escapeJsonChar (c : Char) : String :=
  if c = '\\' then "\\\\"
  else if c = '"' then "\\\""
  else if c = '\n' then "\\n"
  else String.singleton c

/-- JSON-escape a whole string. -/
def escapeJson (s : String) : String :=
  String.join (List.map escapeJsonChar s.toList)

/-- Models json.dumps(v, indent=2, ensure_ascii=False) on our value model
(all our values are atoms, so the indent parameter does not show up). -/
def jsonDumps : PyVal → String
  | PyVal.vNone => "null"
  | PyVal.vStr s => "\"" ++ escapeJson s ++ "\""
  | PyVal.vInt n => toString n
  | PyVal.vBool b => if b then "true" else "false"

/-- Models json.dumps(arguments, indent=2, ensure_ascii=False) on a
keyword-argument dict. -/
def jsonDumpsArgs : Args → String
  | [] => "\x7b\x7d"
  | kvs =>
      "\x7b\n" ++
      String.intercalate ",\n"
        (List.map
          (fun kv => "  \"" ++ escapeJson kv.1 ++ "\": " ++ jsonDumps kv.2)
          kvs) ++
      "\n\x7d"

/-- Agent._format_tool_result (src/agent.py lines 188-219) on a normalized
Outcome: success with data None gives the fixed success sentence, success
with data gives the Success prefix plus the JSON rendering, and failure
echoes the tool name, the pretty-printed arguments and the error text.
(The legacy fallback branch for non-Outcome results is unreachable here,
since _call_tool always produces the standard envelope.) -/
def format_tool_result (tool_name : String) (result : Outcome) : String :=
  match result with
  | Outcome.success data =>
      match data with
      | PyVal.vNone => "Success: Operation completed successfully."
      | d => "Success: " ++ jsonDumps d
  | Outcome.failure err name args =>
      "Error calling " ++ name ++ " with arguments:\n" ++ jsonDumpsArgs args ++
        "\n\nError: " ++ err

/-- The claimed parameter-tag table, written from the spec's words:
integer annotation to integer, floating-point to number, boolean to
boolean, a (bare) sequence annotation to array, anything else or untyped
to string. -/
def spec_param_tag : ParamAnn → String
  | ParamAnn.intAnn => "integer"
  | ParamAnn.floatAnn => "number"
  | ParamAnn.boolAnn => "boolean"
  | ParamAnn.pyListAnn => "array"
  | ParamAnn.typingListAnn => "array"
  | _ => "string"

/-- The parameter-type mapping of Agent._get_tool_schemas (src/agent.py
lines 73-82): default string, then int, float, bool, and the bare list or
typing.List annotations are mapped to their schema tags. -/
def param_type_of (a : ParamAnn) : String :=
  match a with
  | ParamAnn.noAnn => "string"
  | ParamAnn.intAnn => "integer"
  | ParamAnn.floatAnn => "number"
  | ParamAnn.boolAnn => "boolean"
  | ParamAnn.pyListAnn => "array"
  | ParamAnn.typingListAnn => "array"
  | ParamAnn.otherAnn => "string"

/-- One entry of the properties object of a derived schema. -/
structure PropEntry where
  name : String
  type : String
  description : String
deriving DecidableEq

/-- The function part of a derived OpenAI tool schema. -/
structure FunctionSpec where
  name : String
  description : String
  properties : List PropEntry
  required : List String
deriving DecidableEq

/-- A derived OpenAI tool schema. -/
structure ToolSchema where
  type : String
  function : FunctionSpec
deriving DecidableEq

/-- The properties dict built by _get_tool_schemas: one entry per declared
parameter, in declaration order, skipping the parameter named self. -/
def build_props : List Param → List PropEntry
  | [] => []
  | p :: ps =>
      if p.name = "self" then build_props ps
      else
        { name := p.name, type := param_type_of p.ann,
          description := "Parameter " ++ p.name } :: build_props ps

/-- The required list built by _get_tool_schemas: the names of the
non-self parameters whose default is inspect.Parameter.empty. -/
def build_required : List Param → List String
  | [] => []
  | p :: ps =>
      if p.name = "self" then build_required ps
      else if p.hasDefault then build_required ps
      else p.name :: build_required ps

/-- The schema _get_tool_schemas builds for one tool entry (src/agent.py
lines 92-103): type function, the tool name, the docstring (or the
generated stub when it is absent), and the derived properties and
required list. -/
def build_schema (tool_name : String) (t : Tool) : ToolSchema :=
  { type := "function",
    function :=
      { name := tool_name,
        description := if t.doc = "" then "Tool: " ++ tool_name else t.doc,
        properties := build_props t.params,
        required := build_required t.params } }

/-- Agent._get_tool_schemas (src/agent.py lines 56-105): one schema per
tool-mapping entry, in mapping order. -/
def get_tool_schemas (tools : List (String × Tool)) : List ToolSchema :=
  List.map (fun nt => build_schema nt.1 nt.2) tools

/-- A sample str-annotated tool that returns a string starting with the
error prefix. -/
def strToolSample : Tool :=
  { params := [], doc := "", retAnn := RetAnn.strAnn,
    impl := fun _ => Except.ok (PyVal.vStr "Error: no") }

/-- One tool-call request carried by a model response: its call id, the
tool name, and the parsed form of its raw argument text (Option.none when
json.loads would fail; Agent.run then degrades to an empty bag). -/
structure ToolCall where
  id : String
  name : String
  parsedArgs : Option Args
deriving DecidableEq

/-- One message of the conversation transcript, modelling the dicts that
Agent.run appends: role, content (null for tool-call-only assistant
turns), the assistant's requested tool calls, and for tool messages the
answered call id and tool name. -/
structure Message where
  role : String
  content : Option String := Option.none
  tool_calls : List ToolCall := []
  tool_call_id : Option String := Option.none
  name : Option String := Option.none
deriving DecidableEq

/-- One model response: optional text content plus the requested tool
calls ([] models both null and an empty list, which Python treats alike
under truthiness). -/
structure ModelMessage where
  content : Option String
  tool_calls : List ToolCall
deriving DecidableEq

/-- The decision model as an oracle: from the transcript sent and the tool
menu sent, either a transport fault (Except.error with str(e)) or one
assistant message. -/
abbrev Oracle := List Message → Option (List ToolSchema) → Except String ModelMessage

/-- The agent configuration that Agent.run consults: role prompt, tool
mapping and iteration cap. -/
structure Agent where
  system_prompt : String
  tools : List (String × Tool)
  max_iterations : Nat

/-- The mutable per-instance state of an Agent object between runs. -/
structure AgentState where
  conversation_history : List Message
  iteration_count : Nat

/-- The structured result of Agent.run: the result dict's keys, with the
keys a given exit path does not set left at Option.none. -/
structure RunResult where
  result : Option String
  error : Option String := Option.none
  iterations : Nat
  conversation_history : List Message
  final_message : Option String := Option.none
  warning : Option String := Option.none
deriving DecidableEq

/-- The tool menu sent with each API call:
_get_tool_schemas() if self.tools else None. -/
def tool_menu (ag : Agent) : Option (List ToolSchema) :=
  if ag.tools.isEmpty then Option.none else Option.some (get_tool_schemas ag.tools)

/-- The assistant message Agent.run appends for a model response. -/
def assistant_message (m : ModelMessage) : Message :=
  { role := "assistant", content := m.content, tool_calls := m.tool_calls }

/-- The tool message Agent.run appends for one requested call: a
malformed argument payload degrades to an empty bag, the named tool is
invoked through _call_tool and the outcome rendered through
_format_tool_result. -/
def tool_message (ag : Agent) (tc : ToolCall) : Message :=
  let arguments := tc.parsedArgs.getD []
  { role := "tool",
    content := Option.some
      (format_tool_result tc.name (call_tool ag.tools tc.name arguments)),
    tool_call_id := Option.some tc.id,
    name := Option.some tc.name }

/-- conversation_history[-1].get of content with default; the default
only applies to the (never reached) empty-transcript case, since the
content key is present on every message Agent.run appends. -/
def last_content (history : List Message) : Option String :=
  match history.getLast? with
  | Option.some m => m.content
  | Option.none => Option.some "Max iterations reached"

/-- The while loop of Agent.run (src/agent.py lines 243-329), with fuel
equal to max_iterations minus the iterations already taken, so that fuel
zero is exactly the exit of the while condition. Each pass increments the
counter, consults the model, appends the assistant message, then either
dispatches the requested tool calls and loops, or checks the completion
condition: the turn completes the run when its content is a truthy string
containing the phrase task complete case-insensitively, or when the
counter has reached 2; otherwise the loop continues. -/
def runFrom (ag : Agent) (oracle : Oracle) :
    List Message → Nat → Nat → RunResult
  | history, iter, 0 =>
      { result := last_content history, iterations := iter,
        conversation_history := history,
        final_message := last_content history,
        warning := Option.some "Max iterations reached" }
  | history, iter, fuel + 1 =>
      match oracle history (tool_menu ag) with
      | Except.error e =>
          { result := Option.none, error := Option.some e,
            iterations := iter + 1, conversation_history := history }
      | Except.ok m =>
          let history1 := history ++ [assistant_message m]
          if m.tool_calls.isEmpty then
            match m.content with
            | Option.some c =>
                if c = "" then runFrom ag oracle history1 (iter + 1) fuel
                else if py_contains (py_lower c) "task complete"
                    ∨ iter + 1 ≥ 2 then
                  { result := Option.some c, iterations := iter + 1,
                    conversation_history := history1,
                    final_message := Option.some c }
                else runFrom ag oracle history1 (iter + 1) fuel
            | Option.none => runFrom ag oracle history1 (iter + 1) fuel
          else
            runFrom ag oracle
              (history1 ++ List.map (tool_message ag) m.tool_calls)
              (iter + 1) fuel

/-- Agent.run (src/agent.py lines 222-329): the transcript is reset to
the system message and the user task, the iteration counter to zero, and
the loop is entered; the previous instance state st is discarded. -/
def Agent.run (ag : Agent) (st : AgentState) (oracle : Oracle)
    (task : String) : RunResult :=
  let history : List Message :=
    [{ role := "system", content := Option.some ag.system_prompt },
     { role := "user", content := Option.some task }]
  runFrom ag oracle history 0 ag.max_iterations

/-- The plan storage of src/main.py line 32: the ordered action items and
the index of the next item to execute. -/
structure PlanStorage where
  action_items : List String
  current_index : Nat
deriving DecidableEq

/-- plan_storage as initialized in src/main.py: no items, index 0. -/
def plan_storage_init : PlanStorage :=
  { action_items := [], current_index := 0 }

/-- add_action_item (src/main.py lines 34-37): append the instruction to
the shared action_items and return the acknowledgement built from the
first 50 characters of the instruction and the running count. -/
def add_action_item (ps : PlanStorage) (action_item : String) :
    PlanStorage × String :=
  let items := ps.action_items ++ [action_item]
  ({ ps with action_items := items },
   "Action item added: " ++ py_take action_item 50 ++ "... (Total: " ++
     toString items.length ++ ")")

/-- A sequence of add_action_item calls threaded through the plan
storage, collecting each returned acknowledgement. -/
def add_action_items (ps : PlanStorage) : List String → PlanStorage × List String
  | [] => (ps, [])
  | x :: xs =>
      let step := add_action_item ps x
      let rest := add_action_items step.1 xs
      (rest.1, step.2 :: rest.2)

/-- A sample Optional-str-annotated tool: returns None on an empty bag
and an error string otherwise. -/
def optStrToolSample : Tool :=
  { params := [], doc := "", retAnn := RetAnn.optionalStr,
    impl := fun args =>
      if args.isEmpty then Except.ok PyVal.vNone
      else Except.ok (PyVal.vStr "missing field") }

/-- A sample tool with no return annotation: returns None on an empty
bag, an Error-prefixed string on one argument, and an int otherwise. -/
def untypedToolSample : Tool :=
  { params := [], doc := "", retAnn := RetAnn.empty,
    impl := fun args =>
      if args.length = 0 then Except.ok PyVal.vNone
      else if args.length = 1 then Except.ok (PyVal.vStr "Error: bad")
      else Except.ok (PyVal.vInt 7) }

/-- A sample tool annotated Optional of int (a union with None whose
payload is not str) that returns a plain string. -/
def optIntToolSample : Tool :=
  { params := [], doc := "", retAnn := RetAnn.optionalOther,
    impl := fun _ => Except.ok (PyVal.vStr "hello") }

/-- A sample tool returning None normally. -/
def noneToolSample : Tool :=
  { params := [], doc := "", retAnn := RetAnn.otherAnn,
    impl := fun _ => Except.ok PyVal.vNone }

/-- Unfolding lemma: a registered tool returning normally is classified
by classify_result on its return annotation. -/
theorem call_tool_ok (tools : List (String × Tool)) (tool_name : String)
    (t : Tool) (arguments : Args) (result : PyVal)
    (hlook : List.lookup tool_name tools = Option.some t)
    (hres : t.impl arguments = Except.ok result) :
    call_tool tools tool_name arguments =
      classify_result t.retAnn result tool_name arguments := by
  unfold call_tool
  rw [hlook]
  simp only [hres]

/-- Unfolding lemma: a registered tool that raises is converted to the
failure envelope carrying the exception text. -/
theorem call_tool_raise (tools : List (String × Tool)) (tool_name : String)
    (t : Tool) (arguments : Args) (e : String)
    (hlook : List.lookup tool_name tools = Option.some t)
    (hres : t.impl arguments = Except.error e) :
    call_tool tools tool_name arguments =
      Outcome.failure e tool_name arguments := by
  unfold call_tool
  rw [hlook]
  simp only [hres]

/-- C1: for a tool whose declared return type is exactly str, _call_tool
classifies any returned string, including one starting with the Error
prefix, as Success with that string as the data payload, never as a
failure envelope. -/
theorem claim_c1 (tools : List (String × Tool)) (tool_name : String)
    (t : Tool) (arguments : Args) (s : String)
    (hlook : List.lookup tool_name tools = Option.some t)
    (hann : t.retAnn = RetAnn.strAnn)
    (hres : t.impl arguments = Except.ok (PyVal.vStr s)) :
    call_tool tools tool_name arguments =
      Outcome.success (PyVal.vStr s) := by
  rw [call_tool_ok tools tool_name t arguments _ hlook hres, hann]
  exact rfl

/-- C1 witness: a str-annotated tool returning an Error-prefixed string
is still classified as success. -/
theorem claim_c1_witness :
    call_tool [("f", strToolSample)] "f" [] =
      Outcome.success (PyVal.vStr "Error: no") :=
  claim_c1 [("f", strToolSample)] "f" strToolSample [] "Error: no"
    rfl rfl rfl

/-- C2: for a tool whose declared return type is Optional of str, a None
return is classified as Success with data None, while any returned
string, regardless of its content, is classified as Failure carrying that
string as the error text. -/
theorem claim_c2 (tools : List (String × Tool)) (tool_name : String)
    (t : Tool) (args1 args2 : Args) (s : String)
    (hlook : List.lookup tool_name tools = Option.some t)
    (hann : t.retAnn = RetAnn.optionalStr)
    (h1 : t.impl args1 = Except.ok PyVal.vNone)
    (h2 : t.impl args2 = Except.ok (PyVal.vStr s)) :
    call_tool tools tool_name args1 = Outcome.success PyVal.vNone ∧
    call_tool tools tool_name args2 =
      Outcome.failure s tool_name args2 := by
  constructor
  · rw [call_tool_ok tools tool_name t args1 _ hlook h1, hann]
    exact rfl
  · rw [call_tool_ok tools tool_name t args2 _ hlook h2, hann]
    exact rfl

/-- C2 witness: the Optional-str sample tool gives Success on its None
return and Failure on its string return. -/
theorem claim_c2_witness :
    call_tool [("g", optStrToolSample)] "g" [] =
      Outcome.success PyVal.vNone ∧
    call_tool [("g", optStrToolSample)] "g" [("k", PyVal.vInt 1)] =
      Outcome.failure "missing field" "g" [("k", PyVal.vInt 1)] :=
  claim_c2 [("g", optStrToolSample)] "g" optStrToolSample
    [] [("k", PyVal.vInt 1)] "missing field" rfl rfl rfl rfl

/-- C3 counterexample: the claim covers every annotation shape that is
neither str nor Optional of str, hence also a union with None such as
Optional of int, and predicts Success for a returned string that does not
start with the Error prefix; but _call_tool sets is_optional for any
union containing None, so the Optional-of-int sample tool returning the
plain string hello yields Failure. -/
theorem claim_c3_counterexample :
    call_tool [("g", optIntToolSample)] "g" [] =
      Outcome.failure "hello" "g" [] ∧
    py_startswith "hello" "Error:" = false :=
  ⟨rfl, rfl⟩

/-- C3 (amended): for a tool with no return annotation, or with an
annotation shape that is neither str nor a union containing None, a None
return is Success with data None; a returned string is Failure exactly
when it starts with the literal prefix Error:, and Success with the
string as data otherwise; and any other returned value is Success with
that value as data. -/
theorem claim_c3 (tools : List (String × Tool)) (tool_name : String)
    (t : Tool) (args1 args2 args3 : Args) (s : String) (v : PyVal)
    (hlook : List.lookup tool_name tools = Option.some t)
    (hann : t.retAnn = RetAnn.empty ∨ t.retAnn = RetAnn.otherAnn)
    (h1 : t.impl args1 = Except.ok PyVal.vNone)
    (h2 : t.impl args2 = Except.ok (PyVal.vStr s))
    (h3 : t.impl args3 = Except.ok v)
    (hv1 : ∀ u, v ≠ PyVal.vStr u) (hv2 : v ≠ PyVal.vNone) :
    call_tool tools tool_name args1 = Outcome.success PyVal.vNone ∧
    call_tool tools tool_name args2 =
      (if py_startswith s "Error:" then Outcome.failure s tool_name args2
       else Outcome.success (PyVal.vStr s)) ∧
    call_tool tools tool_name args3 = Outcome.success v := by
  refine ⟨?_, ?_, ?_⟩
  · rw [call_tool_ok tools tool_name t args1 _ hlook h1]
    cases hann with
    | inl h => rw [h]; exact rfl
    | inr h => rw [h]; exact rfl
  · rw [call_tool_ok tools tool_name t args2 _ hlook h2]
    cases hann with
    | inl h => rw [h]; exact rfl
    | inr h => rw [h]; exact rfl
  · rw [call_tool_ok tools tool_name t args3 _ hlook h3]
    cases v with
    | vNone => exact absurd rfl hv2
    | vStr u => exact absurd rfl (hv1 u)
    | vInt n =>
        cases hann with
        | inl h => rw [h]; exact rfl
        | inr h => rw [h]; exact rfl
    | vBool b =>
        cases hann with
        | inl h => rw [h]; exact rfl
        | inr h => rw [h]; exact rfl

/-- C3 witness: the untyped sample tool gives Success on None, Failure
on its Error-prefixed string, and Success on its int return. -/
theorem claim_c3_witness :
    call_tool [("u", untypedToolSample)] "u" [] =
      Outcome.success PyVal.vNone ∧
    call_tool [("u", untypedToolSample)] "u" [("a", PyVal.vInt 1)] =
      (if py_startswith "Error: bad" "Error:" then
        Outcome.failure "Error: bad" "u" [("a", PyVal.vInt 1)]
       else Outcome.success (PyVal.vStr "Error: bad")) ∧
    call_tool [("u", untypedToolSample)] "u"
        [("a", PyVal.vInt 1), ("b", PyVal.vInt 2)] =
      Outcome.success (PyVal.vInt 7) :=
  claim_c3 [("u", untypedToolSample)] "u" untypedToolSample
    [] [("a", PyVal.vInt 1)] [("a", PyVal.vInt 1), ("b", PyVal.vInt 2)]
    "Error: bad" (PyVal.vInt 7) rfl (Or.inl rfl) rfl rfl rfl
    (fun u h => PyVal.noConfusion h) (fun h => PyVal.noConfusion h)

/-- C6: a tool name absent from the mapping yields the not-found failure
envelope carrying the requested name and the exact arguments, without
invoking any callable. -/
theorem claim_c6 (tools : List (String × Tool)) (tool_name : String)
    (arguments : Args)
    (hlook : List.lookup tool_name tools = Option.none) :
    call_tool tools tool_name arguments =
      Outcome.failure ("Tool \x27" ++ tool_name ++ "\x27 not found")
        tool_name arguments := by
  unfold call_tool
  rw [hlook]

/-- C6 witness: an unregistered name against the empty mapping. -/
theorem claim_c6_witness :
    call_tool [] "ghost" [("x", PyVal.vBool true)] =
      Outcome.failure ("Tool \x27" ++ "ghost" ++ "\x27 not found")
        "ghost" [("x", PyVal.vBool true)] :=
  claim_c6 [] "ghost" [("x", PyVal.vBool true)] rfl

/-- C7: for a registered tool that raises no fault and returns None,
formatting the invocation outcome yields the fixed success sentence,
whatever the return annotation. -/
theorem claim_c7 (tools : List (String × Tool)) (tool_name : String)
    (t : Tool) (arguments : Args)
    (hlook : List.lookup tool_name tools = Option.some t)
    (hres : t.impl arguments = Except.ok PyVal.vNone) :
    format_tool_result tool_name (call_tool tools tool_name arguments) =
      "Success: Operation completed successfully." := by
  rw [call_tool_ok tools tool_name t arguments _ hlook hres]
  cases t.retAnn <;> rfl

/-- C7 witness: the None-returning sample tool formats to the fixed
success sentence. -/
theorem claim_c7_witness :
    format_tool_result "n" (call_tool [("n", noneToolSample)] "n" []) =
      "Success: Operation completed successfully." :=
  claim_c7 [("n", noneToolSample)] "n" noneToolSample [] rfl rfl

/-- A sample tool that always raises. -/
def faultyToolSample : Tool :=
  { params := [], doc := "", retAnn := RetAnn.empty,
    impl := fun _ => Except.error "boom" }

/-- A sample agent registered with only the faulting tool. -/
def c5Agent : Agent :=
  { system_prompt := "p", tools := [("f", faultyToolSample)],
    max_iterations := 4 }

/-- A sample tool-call request for the faulting tool. -/
def c5Call : ToolCall :=
  { id := "c1", name := "f", parsedArgs := Option.some [("x", PyVal.vInt 1)] }

/-- A sample tool-calls-only model response requesting the faulting
tool. -/
def c5Model : ModelMessage :=
  { content := Option.none, tool_calls := [c5Call] }

/-- A sample oracle that always requests the faulting tool. -/
def c5Oracle : Oracle := fun _ _ => Except.ok c5Model

/-- C5: a tool that raises during execution is converted by _call_tool to
a Failure envelope whose error text is the fault message, whose tool_name
is the requested name and whose arguments are the exact call arguments;
the loop does not abort: a tool-call turn proceeds to the next iteration
with the failure folded into the appended tool message. -/
theorem claim_c5 (ag : Agent) (oracle : Oracle) (history : List Message)
    (iter fuel : Nat) (tc : ToolCall) (t : Tool) (arguments : Args)
    (msg : String) (m : ModelMessage)
    (hlook : List.lookup tc.name ag.tools = Option.some t)
    (hargs : tc.parsedArgs = Option.some arguments)
    (hexc : t.impl arguments = Except.error msg)
    (horacle : oracle history (tool_menu ag) = Except.ok m)
    (htc : m.tool_calls = [tc]) :
    call_tool ag.tools tc.name arguments =
      Outcome.failure msg tc.name arguments ∧
    runFrom ag oracle history iter (fuel + 1) =
      runFrom ag oracle
        (history ++ [assistant_message m] ++ [tool_message ag tc])
        (iter + 1) fuel ∧
    (tool_message ag tc).content =
      Option.some (format_tool_result tc.name
        (Outcome.failure msg tc.name arguments)) := by
  refine ⟨call_tool_raise ag.tools tc.name t arguments msg hlook hexc, ?_, ?_⟩
  · simp only [runFrom, horacle, htc, List.isEmpty_cons, List.map_cons,
      List.map_nil, Bool.false_eq_true, if_false]
  · simp only [tool_message, hargs, Option.getD_some]
    rw [call_tool_raise ag.tools tc.name t arguments msg hlook hexc]

/-- C5 witness: the faulting sample tool inside a one-call turn. -/
theorem claim_c5_witness :
    call_tool c5Agent.tools c5Call.name [("x", PyVal.vInt 1)] =
      Outcome.failure "boom" c5Call.name [("x", PyVal.vInt 1)] ∧
    runFrom c5Agent c5Oracle [] 0 1 =
      runFrom c5Agent c5Oracle
        ([] ++ [assistant_message c5Model] ++ [tool_message c5Agent c5Call])
        1 0 ∧
    (tool_message c5Agent c5Call).content =
      Option.some (format_tool_result c5Call.name
        (Outcome.failure "boom" c5Call.name [("x", PyVal.vInt 1)])) :=
  claim_c5 c5Agent c5Oracle [] 0 0 c5Call faultyToolSample
    [("x", PyVal.vInt 1)] "boom" c5Model rfl rfl rfl rfl rfl

/-- A sample agent with no tools and a cap of 3 iterations. -/
def c4Agent : Agent :=
  { system_prompt := "s", tools := [], max_iterations := 3 }

/-- A sample oracle answering every turn with an empty text content. -/
def c4EmptyOracle : Oracle :=
  fun _ _ => Except.ok { content := Option.some "", tool_calls := [] }

/-- C4 counterexample: a plain-text assistant turn with the non-null but
empty content answers every turn, so by the claim the run should complete
at iteration 2 with that content as result; but Agent.run tests the
content for truthiness, the empty string is falsy, the completion check
is skipped and the run exhausts its cap of 3 iterations with the
max-iterations warning instead. -/
theorem claim_c4_counterexample :
    (c4Agent.run { conversation_history := [], iteration_count := 0 }
        c4EmptyOracle "t").iterations = 3 ∧
    (c4Agent.run { conversation_history := [], iteration_count := 0 }
        c4EmptyOracle "t").warning =
      Option.some "Max iterations reached" ∧
    ¬ (c4Agent.run { conversation_history := [], iteration_count := 0 }
        c4EmptyOracle "t").iterations = 2 := by
  refine ⟨rfl, rfl, ?_⟩
  intro h
  exact absurd h (by decide)

/-- C4 (amended): a plain-text assistant turn (no tool calls, non-empty
content) without a case-insensitive occurrence of the phrase task
complete terminates the run in the completed state with that content as
result exactly when the iteration counter (after increment) is 2 or
more; on the first turn the loop continues instead. -/
theorem claim_c4 (ag : Agent) (oracle : Oracle) (history : List Message)
    (iter fuel : Nat) (m : ModelMessage) (c : String)
    (horacle : oracle history (tool_menu ag) = Except.ok m)
    (htc : m.tool_calls = [])
    (hc : m.content = Option.some c)
    (hne : c ≠ "")
    (hphrase : py_contains (py_lower c) "task complete" = false) :
    runFrom ag oracle history iter (fuel + 1) =
      if 1 ≤ iter then
        { result := Option.some c, iterations := iter + 1,
          conversation_history := history ++ [assistant_message m],
          final_message := Option.some c }
      else runFrom ag oracle (history ++ [assistant_message m])
        (iter + 1) fuel := by
  simp only [runFrom, horacle, htc, hc, List.isEmpty_nil, if_true,
    hphrase, if_neg hne]
  by_cases h : 1 ≤ iter
  · rw [if_pos (Or.inr (by omega : iter + 1 ≥ 2)), if_pos h]
  · have hcond : ¬ ((false = true) ∨ iter + 1 ≥ 2) := by
      rintro (h1 | h2)
      · exact absurd h1 (by decide)
      · omega
    rw [if_neg hcond, if_neg h]

/-- A sample oracle answering every turn with the plain text beta. -/
def c4BetaOracle : Oracle :=
  fun _ _ => Except.ok { content := Option.some "beta", tool_calls := [] }

/-- C4 witness: a plain-text turn with content beta at iteration counter
2 completes the run with result beta. -/
theorem claim_c4_witness :
    runFrom c4Agent c4BetaOracle [] 1 1 =
      if 1 ≤ 1 then
        { result := Option.some "beta", iterations := 2,
          conversation_history :=
            [] ++ [assistant_message
              { content := Option.some "beta", tool_calls := [] }],
          final_message := Option.some "beta" }
      else runFrom c4Agent c4BetaOracle
        ([] ++ [assistant_message
          { content := Option.some "beta", tool_calls := [] }]) 2 0 :=
  claim_c4 c4Agent c4BetaOracle [] 1 0
    { content := Option.some "beta", tool_calls := [] } "beta"
    rfl rfl rfl (by decide) (by decide)

/-- The spec table and the code table agree on every annotation class. -/
theorem spec_tag_eq_code (a : ParamAnn) : spec_param_tag a = param_type_of a := by
  cases a <;> rfl

/-- Every non-self declared parameter contributes its properties entry. -/
theorem mem_build_props {p : Param} {ps : List Param} (hp : p ∈ ps)
    (hself : p.name ≠ "self") :
    ({ name := p.name, type := param_type_of p.ann,
       description := "Parameter " ++ p.name } : PropEntry) ∈ build_props ps := by
  induction ps with
  | nil => cases hp
  | cons q qs ih =>
      cases hp with
      | head =>
          unfold build_props
          rw [if_neg hself]
          exact List.mem_cons_self _ _
      | tail _ hmem =>
          unfold build_props
          by_cases hq : q.name = "self"
          · rw [if_pos hq]; exact ih hmem
          · rw [if_neg hq]; exact List.mem_cons_of_mem _ (ih hmem)

/-- Every non-self declared parameter without a default lands in the
required list. -/
theorem mem_build_required {p : Param} {ps : List Param} (hp : p ∈ ps)
    (hself : p.name ≠ "self") (hdef : p.hasDefault = false) :
    p.name ∈ build_required ps := by
  induction ps with
  | nil => cases hp
  | cons q qs ih =>
      cases hp with
      | head =>
          unfold build_required
          rw [if_neg hself, hdef, if_neg (by decide : ¬ (false = true))]
          exact List.mem_cons_self _ _
      | tail _ hmem =>
          unfold build_required
          by_cases hq : q.name = "self"
          · rw [if_pos hq]; exact ih hmem
          · rw [if_neg hq]
            by_cases hd : q.hasDefault
            · rw [if_pos hd]; exact ih hmem
            · rw [if_neg hd]; exact List.mem_cons_of_mem _ (ih hmem)

/-- Names in the required list come from the declared parameters. -/
theorem build_required_subset {x : String} :
    ∀ {ps : List Param}, x ∈ build_required ps → x ∈ List.map Param.name ps := by
  intro ps
  induction ps with
  | nil => intro h; cases h
  | cons q qs ih =>
      intro h
      unfold build_required at h
      rw [List.map_cons]
      by_cases hq : q.name = "self"
      · rw [if_pos hq] at h; exact List.mem_cons_of_mem _ (ih h)
      · rw [if_neg hq] at h
        by_cases hd : q.hasDefault
        · rw [if_pos hd] at h; exact List.mem_cons_of_mem _ (ih h)
        · rw [if_neg hd] at h
          cases h with
          | head => exact List.mem_cons_self _ _
          | tail _ hmem => exact List.mem_cons_of_mem _ (ih hmem)

/-- Under distinct parameter names, a declared parameter whose name is in
the required list has no default. -/
theorem required_default {p : Param} :
    ∀ {ps : List Param}, (List.map Param.name ps).Nodup → p ∈ ps →
      p.name ∈ build_required ps → p.hasDefault = false := by
  intro ps
  induction ps with
  | nil => intro _ hp; cases hp
  | cons q qs ih =>
      intro hnodup hp hreq
      rw [List.map_cons, List.nodup_cons] at hnodup
      obtain ⟨hqnotin, hnd⟩ := hnodup
      unfold build_required at hreq
      by_cases hq : q.name = "self"
      · rw [if_pos hq] at hreq
        cases hp with
        | head => exact absurd (build_required_subset hreq) hqnotin
        | tail _ hmem => exact ih hnd hmem hreq
      · rw [if_neg hq] at hreq
        by_cases hd : q.hasDefault
        · rw [if_pos hd] at hreq
          cases hp with
          | head => exact absurd (build_required_subset hreq) hqnotin
          | tail _ hmem => exact ih hnd hmem hreq
        · rw [if_neg hd] at hreq
          cases hp with
          | head => simpa using hd
          | tail _ hmem =>
              rw [List.mem_cons] at hreq
              cases hreq with
              | inl heq =>
                  exact absurd (heq ▸ List.mem_map_of_mem Param.name hmem)
                    hqnotin
              | inr hreq2 => exact ih hnd hmem hreq2

/-- C8: for every tool in the mapping, its derived schema is in the
derived schema list, and every declared non-self parameter (with
signature-unique parameter names) is tagged per the spec table
integer/number/boolean/array/string and appears in the required set
exactly when it has no default value. -/
theorem claim_c8 (tools : List (String × Tool)) (tool_name : String)
    (t : Tool) (p : Param)
    (hmem : (tool_name, t) ∈ tools) (hp : p ∈ t.params)
    (hself : p.name ≠ "self")
    (hnodup : (List.map Param.name t.params).Nodup) :
    build_schema tool_name t ∈ get_tool_schemas tools ∧
    ({ name := p.name, type := spec_param_tag p.ann,
       description := "Parameter " ++ p.name } : PropEntry) ∈
      (build_schema tool_name t).function.properties ∧
    (p.name ∈ (build_schema tool_name t).function.required ↔
      p.hasDefault = false) := by
  refine ⟨?_, ?_, ?_⟩
  · exact List.mem_map_of_mem _ hmem
  · rw [spec_tag_eq_code]
    exact mem_build_props hp hself
  · constructor
    · intro h; exact required_default hnodup hp h
    · intro h; exact mem_build_required hp hself h

/-- A sample tool whose signature is that of add_action_item: one
str-annotated required parameter. -/
def addItemSigSample : Tool :=
  { params := [{ name := "action_item", ann := ParamAnn.otherAnn,
                 hasDefault := false }],
    doc := "Add an action item to the execution plan",
    retAnn := RetAnn.strAnn,
    impl := fun _ => Except.ok PyVal.vNone }

/-- C8 witness: the add_action_item signature derives a string-tagged
required parameter. -/
theorem claim_c8_witness :
    build_schema "add_action_item" addItemSigSample ∈
      get_tool_schemas [("add_action_item", addItemSigSample)] ∧
    ({ name := "action_item", type := spec_param_tag ParamAnn.otherAnn,
       description := "Parameter " ++ "action_item" } : PropEntry) ∈
      (build_schema "add_action_item" addItemSigSample).function.properties ∧
    ("action_item" ∈
        (build_schema "add_action_item" addItemSigSample).function.required ↔
      ({ name := "action_item", ann := ParamAnn.otherAnn,
         hasDefault := false } : Param).hasDefault = false) :=
  claim_c8 [("add_action_item", addItemSigSample)] "add_action_item"
    addItemSigSample
    { name := "action_item", ann := ParamAnn.otherAnn, hasDefault := false }
    (List.mem_singleton.mpr rfl) (List.mem_singleton.mpr rfl)
    (by decide) (List.nodup_singleton "action_item")

/-- The running counts start+1, ..., start+n that successive
add_action_item acknowledgements report. -/
def ack_counts (start : Nat) : Nat → List Nat
  | 0 => []
  | n + 1 => (start + 1) :: ack_counts (start + 1) n

/-- State evolution of a call sequence: the items are appended in call
order and the cursor is untouched. -/
theorem add_action_items_state :
    ∀ (items : List String) (ps : PlanStorage),
      (add_action_items ps items).1.action_items =
        ps.action_items ++ items ∧
      (add_action_items ps items).1.current_index = ps.current_index := by
  intro items
  induction items with
  | nil => intro ps; exact ⟨(List.append_nil _).symm, rfl⟩
  | cons x xs ih =>
      intro ps
      refine ⟨?_, ?_⟩
      · show (add_action_items
            { ps with action_items := ps.action_items ++ [x] } xs).1.action_items
          = ps.action_items ++ (x :: xs)
        rw [(ih _).1]
        simp
      · exact (ih { ps with action_items := ps.action_items ++ [x] }).2

/-- Each acknowledgement of a call sequence embeds its running count. -/
theorem add_action_items_acks :
    ∀ (items : List String) (ps : PlanStorage),
      List.Forall₂ (fun k ack => ∃ pre post, ack = pre ++ toString k ++ post)
        (ack_counts ps.action_items.length items.length)
        (add_action_items ps items).2 := by
  intro items
  induction items with
  | nil => intro ps; exact List.Forall₂.nil
  | cons x xs ih =>
      intro ps
      refine List.Forall₂.cons ?_ ?_
      · refine ⟨"Action item added: " ++ py_take x 50 ++ "... (Total: ",
          ")", ?_⟩
        show "Action item added: " ++ py_take x 50 ++ "... (Total: " ++
            toString (ps.action_items ++ [x]).length ++ ")" = _
        rw [List.length_append, List.length_singleton]
      · have h := ih { ps with action_items := ps.action_items ++ [x] }
        simpa [List.length_append] using h

/-- C9: a sequence of add_action_item calls from the initial plan storage
appends each instruction in call order, leaves the cursor at 0, returns
for the k-th call an acknowledgement embedding the running count k, and
the tool has no failure path: its str-annotated string return is always
classified as Success. -/
theorem claim_c9 (items : List String) :
    (add_action_items plan_storage_init items).1.action_items = items ∧
    (add_action_items plan_storage_init items).1.current_index = 0 ∧
    List.Forall₂ (fun k ack => ∃ pre post, ack = pre ++ toString k ++ post)
      (ack_counts 0 items.length)
      (add_action_items plan_storage_init items).2 ∧
    ∀ (ps : PlanStorage) (a : String),
      classify_result RetAnn.strAnn (PyVal.vStr (add_action_item ps a).2)
        "add_action_item" [] =
      Outcome.success (PyVal.vStr (add_action_item ps a).2) := by
  refine ⟨?_, ?_, ?_, ?_⟩
  · simpa using (add_action_items_state items plan_storage_init).1
  · exact (add_action_items_state items plan_storage_init).2
  · simpa using add_action_items_acks items plan_storage_init
  · intro ps a; exact rfl

/-- Whatever happens inside the loop, the transcript only grows: the
final conversation history extends the history the loop started from. -/
theorem runFrom_history_grows (ag : Agent) (oracle : Oracle) :
    ∀ (fuel : Nat) (history : List Message) (iter : Nat),
      ∃ rest, (runFrom ag oracle history iter fuel).conversation_history =
        history ++ rest := by
  intro fuel
  induction fuel with
  | zero =>
      intro history iter
      exact ⟨[], (List.append_nil history).symm⟩
  | succ n ih =>
      intro history iter
      cases horacle : oracle history (tool_menu ag) with
      | error e =>
          refine ⟨[], ?_⟩
          simp [runFrom, horacle]
      | ok m =>
          obtain ⟨mc, mt⟩ := m
          cases mt with
          | cons tc tcs =>
              obtain ⟨rest, hrest⟩ :=
                ih (history ++ [assistant_message ⟨mc, tc :: tcs⟩] ++
                  List.map (tool_message ag) (tc :: tcs)) (iter + 1)
              refine ⟨[assistant_message ⟨mc, tc :: tcs⟩] ++
                List.map (tool_message ag) (tc :: tcs) ++ rest, ?_⟩
              simp only [runFrom, horacle, List.isEmpty_cons,
                Bool.false_eq_true, if_false]
              rw [hrest]
              simp [List.append_assoc]
          | nil =>
              cases mc with
              | none =>
                  obtain ⟨rest, hrest⟩ :=
                    ih (history ++ [assistant_message ⟨Option.none, []⟩])
                      (iter + 1)
                  refine ⟨[assistant_message ⟨Option.none, []⟩] ++ rest, ?_⟩
                  simp only [runFrom, horacle, List.isEmpty_nil, if_true]
                  rw [hrest, List.append_assoc]
              | some c =>
                  by_cases hce : c = ""
                  · subst hce
                    obtain ⟨rest, hrest⟩ :=
                      ih (history ++ [assistant_message ⟨Option.some "", []⟩])
                        (iter + 1)
                    refine ⟨[assistant_message ⟨Option.some "", []⟩] ++
                      rest, ?_⟩
                    simp only [runFrom, horacle, List.isEmpty_nil, if_true]
                    rw [hrest, List.append_assoc]
                  · by_cases hdone :
                        py_contains (py_lower c) "task complete" = true
                        ∨ iter + 1 ≥ 2
                    · refine ⟨[assistant_message ⟨Option.some c, []⟩], ?_⟩
                      simp only [runFrom, horacle, List.isEmpty_nil, if_true]
                      rw [if_neg hce, if_pos hdone]
                    · obtain ⟨rest, hrest⟩ :=
                        ih (history ++
                          [assistant_message ⟨Option.some c, []⟩]) (iter + 1)
                      refine ⟨[assistant_message ⟨Option.some c, []⟩] ++
                        rest, ?_⟩
                      simp only [runFrom, horacle, List.isEmpty_nil, if_true]
                      rw [if_neg hce, if_neg hdone, hrest, List.append_assoc]

/-- C10: Agent.run discards whatever instance state a previous run left
behind — two runs of the same agent on the same task with the same
oracle agree whatever the starting states were — and its transcript
starts with exactly the system role prompt followed by the user task. -/
theorem claim_c10 (ag : Agent) (st st2 : AgentState) (oracle : Oracle)
    (task : String) :
    ag.run st oracle task = ag.run st2 oracle task ∧
    ∃ rest, (ag.run st oracle task).conversation_history =
      ({ role := "system", content := Option.some ag.system_prompt } : Message) ::
      ({ role := "user", content := Option.some task } : Message) :: rest := by
  refine ⟨rfl, ?_⟩
  obtain ⟨rest, h⟩ := runFrom_history_grows ag oracle ag.max_iterations
    [{ role := "system", content := Option.some ag.system_prompt },
     { role := "user", content := Option.some task }] 0
  exact ⟨rest, h⟩

end RCS
